import Mathlib

/-!
Shallow embedding of `src/university_database_generator.py`, a sqlite seeding
script.  Randomness (`random.randint`, `random.choice`, `random.uniform`,
`random.sample`, Faker names) is modeled by explicit "tapes": arbitrary
functions from call indices to raw values, which each primitive coerces into
the contract range of the corresponding Python API.  Python floats are modeled
as rationals; Python strings as Lean strings.
-/

namespace UniversityDB

/-- Python `str.lower()` (character-wise, at the data level so that it
evaluates). -/
def strLower (s : String) : String := String.mk (s.data.map Char.toLower)

/-- Python `str.upper()`. -/
def strUpper (s : String) : String := String.mk (s.data.map Char.toUpper)

/-- Python slicing `s[:n]`. -/
def strTake (s : String) (n : Nat) : String := String.mk (s.data.take n)

/-- Decimal string of a natural number, modeling Python `str(n)` /
f-string interpolation of an `int`. -/
def natStr (n : Nat) : String :=
  if n = 0 then "0" else String.mk ((Nat.digits 10 n).reverse.map Nat.digitChar)

/-- Model of `random.randint(a, b)`: an arbitrary tape value `t` coerced into
`[a, b]`. -/
def pyRandint (a b t : Nat) : Nat := a + t % (b + 1 - a)

/-- Model of `random.choice(xs)` for a list of strings. -/
def pyChoice (xs : List String) (t : Nat) : String := xs.getD (t % xs.length) ""

/-- Model of `random.choice(xs)` for a list of naturals. -/
def pyChoiceNat (xs : List Nat) (t : Nat) : Nat := xs.getD (t % xs.length) 0

/-- Model of `random.uniform(a, b)`: `a + (b-a)*random()` with
`random() ∈ [0,1)` given by the fractional part of the tape value. -/
def pyUniform (a b t : ℚ) : ℚ := a + (b - a) * (t - ⌊t⌋)

/-- Round-half-to-even on rationals, the tie-breaking rule of Python
`round`. -/
def roundHalfEven (q : ℚ) : ℤ :=
  if q - ⌊q⌋ < 1/2 then ⌊q⌋
  else if (1 : ℚ)/2 < q - ⌊q⌋ then ⌊q⌋ + 1
  else if ⌊q⌋ % 2 = 0 then ⌊q⌋ else ⌊q⌋ + 1

/-- Model of Python `round(q, 2)`. -/
def pyRound2 (q : ℚ) : ℚ := roundHalfEven (q * 100) / 100

/-- Model of Python `list(range(a, b))`. -/
def pyRange (a b : Nat) : List Nat := (List.range (b - a)).map (a + ·)

/-- One step list of `random.sample(pop, k)`: repeatedly pick a position in the
remaining population and remove it (sampling without replacement).  `i` indexes
the tape. -/
def pySampleAux (t : Nat → Nat) : Nat → Nat → List String → List String
  | _, 0, _ => []
  | i, Nat.succ k, pop =>
    if h : pop.length = 0 then []
    else
      let idx := t i % pop.length
      pop.get ⟨idx, Nat.mod_lt (t i) (Nat.pos_of_ne_zero h)⟩ ::
        pySampleAux t (i + 1) k (pop.eraseIdx idx)

/-- Model of `random.sample(pop, k)`: raises `ValueError` (here: `none`) when
`k` exceeds the population size, otherwise returns `k` elements drawn without
replacement. -/
def pySample (pop : List String) (k : Nat) (t : Nat → Nat) : Option (List String) :=
  if k ≤ pop.length then some (pySampleAux t 0 k pop) else none

/-! ## Email generation (`generate_unique_email`, lines 19–30) -/

/-- The successive candidate emails tried by the `while` loop:
`base@university.edu` first, then `base1@...`, `base2@...`, …. -/
def candidate (base : String) : Nat → String
  | 0 => base ++ "@university.edu"
  | Nat.succ c => base ++ natStr (c + 1) ++ "@university.edu"

/-- The `while email in self.used_emails` loop, fuel-bounded for termination;
fuel `used.length + 1` is always sufficient (proved below). -/
def findEmail (used : List String) (base : String) : Nat → Nat → Option String
  | _, 0 => none
  | c, Nat.succ fuel =>
    if candidate base c ∈ used then findEmail used base (c + 1) fuel
    else some (candidate base c)

/-- `generate_unique_email`: lower-cased `first.last` base, counter suffix on
collision; the issued email is recorded by the caller state. -/
def generate_unique_email (used : List String) (first_name last_name : String) : String :=
  let base := strLower first_name ++ "." ++ strLower last_name
  match findEmail used base 0 (used.length + 1) with
  | some e => e
  | none => base ++ "@university.edu"

/-! ## Data model -/

structure Student where
  first_name : String
  last_name : String
  gender : String
  date_of_birth : Nat
  email : String
  enrollment_status : String
  total_credits : Nat
  gpa : ℚ
  deriving Repr, DecidableEq

structure Course where
  course_id : String
  course_name : String
  department_id : Nat
  credit_hours : Nat
  course_level : String
  deriving Repr, DecidableEq

structure Enrollment where
  student_id : Nat
  course_id : String
  semester : String
  academic_year : Nat
  grade : ℚ
  deriving Repr, DecidableEq

/-- The fixed reference list of `generate_departments` (lines 88–96). -/
def departments : List (String × Nat) :=
  [("Computer Science", 1985), ("Mathematics", 1970), ("Physics", 1960),
   ("Biology", 1975), ("Chemistry", 1965), ("Engineering", 1980),
   ("Economics", 1990)]

/-- The Departments table after seeding: AUTOINCREMENT ids 1..7 with the fixed
names. -/
def departmentRows : List (Nat × String) :=
  departments.enum.map (fun p => (p.1 + 1, p.2.1))

/-! ## Course seeding (`generate_courses`, lines 102–121) -/

def course_levels : List String := ["Introductory", "Intermediate", "Advanced"]

/-- Random tape for course generation, indexed by (department position,
level position). -/
structure CourseTape where
  idT : Nat → Nat → Nat
  chT : Nat → Nat → Nat

/-- Inner loop of `generate_courses` for one department row. -/
def coursesForDept (did : Nat) (dname : String) (idT chT : Nat → Nat) : List Course :=
  course_levels.enum.map (fun p =>
    { course_id := strUpper (strTake dname 3) ++ natStr (pyRandint 100 999 (idT p.1)),
      course_name := dname ++ " " ++ p.2 ++ " Course",
      department_id := did,
      credit_hours := pyChoiceNat [3, 4] (chT p.1),
      course_level := p.2 })

/-- `generate_courses`: one course per (department, level). -/
def generate_courses (depts : List (Nat × String)) (r : CourseTape) : List Course :=
  (depts.enum.map (fun q => coursesForDept q.2.1 q.2.2 (r.idT q.1) (r.chT q.1))).flatten

/-! ## Student seeding (`generate_students`, lines 123–149) -/

def gender_options : List String := ["Male", "Female", "Other"]

def status_options : List String := ["Active", "Inactive", "Graduated", "Suspended"]

/-- Random tape for student generation: Faker names and date of birth (opaque),
plus choice/randint/uniform raw values, indexed by student position. -/
structure StudentTape where
  first : Nat → String
  last : Nat → String
  genderT : Nat → Nat
  dobT : Nat → Nat
  statusT : Nat → Nat
  creditsT : Nat → Nat
  gpaT : Nat → ℚ

/-- Loop body of `generate_students`, threading the `used_emails` state
(each issued email is recorded there). -/
def generate_students_aux (r : StudentTape) : Nat → Nat → List String → List Student × List String
  | 0, _, used => ([], used)
  | Nat.succ n, i, used =>
    let fn := r.first i
    let ln := r.last i
    let email := generate_unique_email used fn ln
    let st : Student :=
      { first_name := fn, last_name := ln,
        gender := pyChoice gender_options (r.genderT i),
        date_of_birth := r.dobT i,
        email := email,
        enrollment_status := pyChoice status_options (r.statusT i),
        total_credits := pyRandint 0 120 (r.creditsT i),
        gpa := pyRound2 (pyUniform 2 4 (r.gpaT i)) }
    let rest := generate_students_aux r n (i + 1) (email :: used)
    (st :: rest.1, rest.2)

/-- `generate_students(num_students)`: returns the student rows and the final
`used_emails` state. -/
def generate_students (num_students : Nat) (r : StudentTape) (used : List String) :
    List Student × List String :=
  generate_students_aux r num_students 0 used

/-- Default value of the `num_students` parameter. -/
def default_num_students : Nat := 1200

/-! ## Enrollment seeding (`generate_enrollments`, lines 151–183) -/

def semesters : List String := ["Fall", "Spring", "Summer"]

def academic_years : List Nat := pyRange 2018 2024

/-- Random tape for enrollments, indexed by student position (and course draw
position for the inner loop). -/
structure EnrollTape where
  numT : Nat → Nat
  sampleT : Nat → Nat → Nat
  semT : Nat → Nat → Nat
  yearT : Nat → Nat → Nat
  gradeT : Nat → Nat → ℚ

/-- Inner-loop row construction of `generate_enrollments`. -/
def enrollRow (sid : Nat) (cid : String) (semT yearT : Nat → Nat) (gradeT : Nat → ℚ)
    (ci : Nat) : Enrollment :=
  { student_id := sid, course_id := cid,
    semester := pyChoice semesters (semT ci),
    academic_year := pyChoiceNat academic_years (yearT ci),
    grade := pyRound2 (pyUniform 2 4 (gradeT ci)) }

/-- Per-student body: `num_courses = randint(3,5)`, `random.sample`, then one
row per sampled course; `none` models the `ValueError` of an oversized
sample. -/
def studentEnrollments (sid : Nat) (courses : List String) (r : EnrollTape) (si : Nat) :
    Option (List Enrollment) :=
  let num_courses := pyRandint 3 5 (r.numT si)
  (pySample courses num_courses (r.sampleT si)).map (fun cs =>
    cs.enum.map (fun p => enrollRow sid p.2 (r.semT si) (r.yearT si) (r.gradeT si) p.1))

def generate_enrollments_aux (courses : List String) (r : EnrollTape) :
    List Nat → Nat → Option (List Enrollment)
  | [], _ => some []
  | sid :: rest, si =>
    match studentEnrollments sid courses r si with
    | none => none
    | some block =>
      match generate_enrollments_aux courses r rest (si + 1) with
      | none => none
      | some es => some (block ++ es)

/-- `generate_enrollments` over the student ids and course ids read back from
the database. -/
def generate_enrollments (students : List Nat) (courses : List String) (r : EnrollTape) :
    Option (List Enrollment) :=
  generate_enrollments_aux courses r students 0

/-- The column tuple of the declared UNIQUE constraint on Enrollments. -/
def enrollKey (e : Enrollment) : Nat × String × String × Nat :=
  (e.student_id, e.course_id, e.semester, e.academic_year)

/-! ## Schema (`create_tables`, lines 32–84) -/

structure TableDef where
  columns : List String
  constraints : List String
  deriving Repr, DecidableEq

structure Schema where
  Students : Option TableDef
  Departments : Option TableDef
  Courses : Option TableDef
  Enrollments : Option TableDef
  deriving Repr, DecidableEq

def studentsTable : TableDef :=
  { columns :=
      ["student_id INTEGER PRIMARY KEY AUTOINCREMENT", "first_name TEXT NOT NULL",
       "last_name TEXT NOT NULL", "gender TEXT", "date_of_birth DATE", "email TEXT UNIQUE",
       "enrollment_status TEXT", "total_credits INTEGER", "gpa REAL"],
    constraints :=
      ["CHECK gender IN (Male, Female, Other)",
       "CHECK enrollment_status IN (Active, Inactive, Graduated, Suspended)",
       "CHECK gpa BETWEEN 0.0 AND 4.0"] }

def departmentsTable : TableDef :=
  { columns :=
      ["department_id INTEGER PRIMARY KEY AUTOINCREMENT",
       "department_name TEXT UNIQUE NOT NULL", "established_year INTEGER"],
    constraints := [] }

def coursesTable : TableDef :=
  { columns :=
      ["course_id TEXT PRIMARY KEY", "course_name TEXT NOT NULL", "department_id INTEGER",
       "credit_hours INTEGER", "course_level TEXT"],
    constraints :=
      ["CHECK course_level IN (Introductory, Intermediate, Advanced)",
       "FOREIGN KEY department_id REFERENCES Departments(department_id)"] }

def enrollmentsTable : TableDef :=
  { columns :=
      ["enrollment_id INTEGER PRIMARY KEY AUTOINCREMENT", "student_id INTEGER",
       "course_id TEXT", "semester TEXT", "academic_year INTEGER", "grade REAL"],
    constraints :=
      ["CHECK semester IN (Fall, Spring, Summer)", "CHECK grade BETWEEN 0.0 AND 4.0",
       "FOREIGN KEY student_id REFERENCES Students(student_id)",
       "FOREIGN KEY course_id REFERENCES Courses(course_id)",
       "UNIQUE(student_id, course_id, semester, academic_year)"] }

/-- `DROP TABLE IF EXISTS` for one table name (a no-op when absent). -/
def drop_table (s : Schema) : String → Schema
  | "Enrollments" => { s with Enrollments := none }
  | "Courses" => { s with Courses := none }
  | "Departments" => { s with Departments := none }
  | "Students" => { s with Students := none }
  | _ => s

/-- `create_tables`: drop the four tables if present, then create them with
their declared constraints. -/
def create_tables (s : Schema) : Schema :=
  let dropped := ["Enrollments", "Courses", "Departments", "Students"].foldl drop_table s
  { dropped with
    Students := some studentsTable, Departments := some departmentsTable,
    Courses := some coursesTable, Enrollments := some enrollmentsTable }

/-! ## Orchestrator (`run_database_generation`, lines 185–222) -/

/-- A Python exception: either a `sqlite3.Error` or anything else. -/
inductive PyError where
  | sqlite (msg : String)
  | other (msg : String)
  deriving Repr, DecidableEq

/-- What one pipeline stage does when reached. -/
inductive StageOutcome where
  | ok
  | fail (e : PyError)
  deriving Repr, DecidableEq

/-- Observable outcome of one run of `run_database_generation`. -/
structure RunResult where
  uncaught : Option String
  logged : List String
  connOpened : Bool
  connClosed : Bool
  stagesRun : Nat
  deriving Repr, DecidableEq

/-- Run the stages in order until the first failure: the number of stages
entered, and the failure if any (no stage is retried). -/
def runStages : List StageOutcome → Nat × Option PyError
  | [] => (0, none)
  | StageOutcome.ok :: rest =>
    let r := runStages rest
    (r.1 + 1, r.2)
  | StageOutcome.fail e :: _ => (1, some e)

/-- The first failure in the stage list, if any. -/
def firstFailure : List StageOutcome → Option PyError
  | [] => none
  | StageOutcome.ok :: rest => firstFailure rest
  | StageOutcome.fail e :: _ => some e

/-- `run_database_generation`: `try` to connect and run the stages;
`except sqlite3.Error` logs `Database error: ...`; any other exception
propagates; `finally` closes the connection exactly when it was acquired
(`if self.conn`). -/
def run_database_generation (connect : StageOutcome) (stages : List StageOutcome) : RunResult :=
  match connect with
  | StageOutcome.fail (PyError.sqlite m) =>
    { uncaught := none, logged := ["Database error: " ++ m],
      connOpened := false, connClosed := false, stagesRun := 0 }
  | StageOutcome.fail (PyError.other m) =>
    { uncaught := some m, logged := [],
      connOpened := false, connClosed := false, stagesRun := 0 }
  | StageOutcome.ok =>
    let r := runStages stages
    match r.2 with
    | none =>
      { uncaught := none, logged := [], connOpened := true, connClosed := true,
        stagesRun := r.1 }
    | some (PyError.sqlite m) =>
      { uncaught := none, logged := ["Database error: " ++ m], connOpened := true,
        connClosed := true, stagesRun := r.1 }
    | some (PyError.other m) =>
      { uncaught := some m, logged := [], connOpened := true, connClosed := true,
        stagesRun := r.1 }

/-! ## Manager construction and entry point (lines 6–12, 224–227) -/

/-- `UniversityDatabaseManager.__init__`: fresh state with an empty
`used_emails` set. -/
structure Manager where
  db_name : String
  used_emails : List String
  deriving Repr, DecidableEq

def Manager.mk_fresh (db_name : String) : Manager :=
  { db_name := db_name, used_emails := [] }

/-- The manager constructed by `main()` (default database name). -/
def main_manager : Manager := Manager.mk_fresh "university_database.db"

/-- The students produced by one invocation of the entry point, starting from
the freshly-constructed manager state. -/
def mainStudents (r : StudentTape) : List Student :=
  (generate_students default_num_students r main_manager.used_emails).1

/-! ## Lemmas: decimal strings -/

lemma digitChar_toNat {a : Nat} (ha : a < 10) : (Nat.digitChar a).toNat = 48 + a := by
  interval_cases a <;> rfl

lemma map_digitChar_cancel :
    ∀ l : List Nat, (∀ x ∈ l, x < 10) →
      (l.map Nat.digitChar).map (fun c => c.toNat - 48) = l := by
  intro l hl
  induction l with
  | nil => rfl
  | cons a l ih =>
    have ha : a < 10 := hl a (List.mem_cons_self a l)
    simp only [List.map_cons, List.cons.injEq]
    refine ⟨by rw [digitChar_toNat ha]; omega, ih fun x hx => hl x (List.mem_cons_of_mem _ hx)⟩

lemma natStr_pos_ne_zero_str {n : Nat} (hn : n ≠ 0) : natStr n ≠ "0" := by
  unfold natStr
  simp only [hn, if_false]
  intro h
  have hdata : (Nat.digits 10 n).reverse.map Nat.digitChar = ['0'] := by
    have := congrArg String.data h
    simpa using this
  have hlen : (Nat.digits 10 n).length = 1 := by
    have := congrArg List.length hdata
    simpa using this
  obtain ⟨d, hd⟩ := List.length_eq_one.mp hlen
  rw [hd] at hdata
  simp only [List.reverse_cons, List.reverse_nil, List.nil_append, List.map_cons,
    List.map_nil, List.cons.injEq, and_true] at hdata
  have hd10 : d < 10 :=
    Nat.digits_lt_base (by norm_num) (by rw [hd]; exact List.mem_cons_self d [])
  have hdn : d = n := by
    have := Nat.ofDigits_digits 10 n
    rw [hd] at this
    simpa [Nat.ofDigits] using this
  have htoNat := congrArg Char.toNat hdata
  rw [digitChar_toNat hd10] at htoNat
  have h0 : ('0').toNat = 48 := rfl
  omega

lemma natStr_inj : Function.Injective natStr := by
  intro m n h
  by_cases hm : m = 0
  · by_cases hn : n = 0
    · omega
    · exfalso
      apply natStr_pos_ne_zero_str hn
      rw [← h, hm]
      rfl
  · by_cases hn : n = 0
    · exfalso
      apply natStr_pos_ne_zero_str hm
      rw [h, hn]
      rfl
    · -- both nonzero: recover the digit lists
      unfold natStr at h
      simp only [hm, hn, if_false] at h
      have hdata : (Nat.digits 10 m).reverse.map Nat.digitChar =
          (Nat.digits 10 n).reverse.map Nat.digitChar := congrArg String.data h
      have hm10 : ∀ x ∈ (Nat.digits 10 m).reverse, x < 10 := fun x hx =>
        Nat.digits_lt_base (by norm_num) (List.mem_reverse.mp hx)
      have hn10 : ∀ x ∈ (Nat.digits 10 n).reverse, x < 10 := fun x hx =>
        Nat.digits_lt_base (by norm_num) (List.mem_reverse.mp hx)
      have hrev : (Nat.digits 10 m).reverse = (Nat.digits 10 n).reverse := by
        have := congrArg (List.map fun c => Char.toNat c - 48) hdata
        rwa [map_digitChar_cancel _ hm10, map_digitChar_cancel _ hn10] at this
      have hdig : Nat.digits 10 m = Nat.digits 10 n := List.reverse_injective hrev
      have := congrArg (Nat.ofDigits 10) hdig
      rwa [Nat.ofDigits_digits, Nat.ofDigits_digits] at this

lemma natStr_ne_empty (n : Nat) : natStr n ≠ "" := by
  unfold natStr
  by_cases hn : n = 0
  · simp [hn]
  · simp only [hn, if_false]
    intro h
    have hdata : (Nat.digits 10 n).reverse.map Nat.digitChar = [] := congrArg String.data h
    have : Nat.digits 10 n = [] := by
      have := congrArg List.length hdata
      simpa using this
    exact hn (Nat.digits_eq_nil_iff_eq_zero.mp this)

/-! ## Lemmas: the email candidate family and the search loop -/

lemma string_data_eq {s t : String} (h : s.data = t.data) : s = t := by
  cases s
  cases t
  exact congrArg String.mk h

lemma candidate_inj (base : String) : Function.Injective (candidate base) := by
  intro a b h
  match a, b with
  | 0, 0 => rfl
  | 0, Nat.succ c =>
    exfalso
    have hdata := congrArg String.data h
    simp only [candidate, String.data_append, List.append_assoc] at hdata
    have := List.append_cancel_left hdata
    have hlen := congrArg List.length this
    simp only [List.length_append] at hlen
    have : (natStr (c + 1)).data = [] := by
      cases hd : (natStr (c + 1)).data with
      | nil => rfl
      | cons x xs => rw [hd] at hlen; simp at hlen
    exact natStr_ne_empty (c + 1) (string_data_eq this)
  | Nat.succ c, 0 =>
    exfalso
    have hdata := congrArg String.data h
    simp only [candidate, String.data_append, List.append_assoc] at hdata
    have := List.append_cancel_left hdata
    have hlen := congrArg List.length this
    simp only [List.length_append] at hlen
    have : (natStr (c + 1)).data = [] := by
      cases hd : (natStr (c + 1)).data with
      | nil => rfl
      | cons x xs => rw [hd] at hlen; simp at hlen
    exact natStr_ne_empty (c + 1) (string_data_eq this)
  | Nat.succ c, Nat.succ d =>
    have hdata := congrArg String.data h
    simp only [candidate, String.data_append, List.append_assoc] at hdata
    have h1 := List.append_cancel_left hdata
    have h2 := List.append_cancel_right h1
    have := natStr_inj (string_data_eq h2)
    omega

lemma exists_fresh_candidate (used : List String) (base : String) :
    ∃ k, k ≤ used.length ∧ candidate base k ∉ used := by
  by_contra hcon
  push_neg at hcon
  set l : List String := (List.range (used.length + 1)).map (candidate base) with hl
  have hnodup : l.Nodup := (List.nodup_range _).map (candidate_inj base)
  have hsub : l ⊆ used := by
    intro x hx
    rw [hl, List.mem_map] at hx
    obtain ⟨k, hk, rfl⟩ := hx
    exact hcon k (by simpa using Nat.lt_succ_iff.mp (List.mem_range.mp hk))
  have hle := (List.subperm_of_subset hnodup hsub).length_le
  rw [hl] at hle
  simp at hle

lemma findEmail_some_not_mem (used : List String) (base : String) :
    ∀ fuel c e, findEmail used base c fuel = some e → e ∉ used := by
  intro fuel
  induction fuel with
  | zero => intro c e h; simp [findEmail] at h
  | succ fuel ih =>
    intro c e h
    unfold findEmail at h
    split at h
    · exact ih (c + 1) e h
    · cases h; assumption

lemma findEmail_isSome (used : List String) (base : String) :
    ∀ fuel c, (∃ k, k < fuel ∧ candidate base (c + k) ∉ used) →
      (findEmail used base c fuel).isSome := by
  intro fuel
  induction fuel with
  | zero => intro c ⟨k, hk, _⟩; omega
  | succ fuel ih =>
    intro c ⟨k, hk, hfresh⟩
    unfold findEmail
    split
    · refine ih (c + 1) ⟨k - 1, ?_, ?_⟩
      · rcases Nat.eq_zero_or_pos k with rfl | hkpos
        · simp_all
        · omega
      · rcases Nat.eq_zero_or_pos k with rfl | hkpos
        · simp_all
        · have : c + 1 + (k - 1) = c + k := by omega
          rw [this]; exact hfresh
    · simp

lemma generate_unique_email_not_mem (used : List String) (fn ln : String) :
    generate_unique_email used fn ln ∉ used := by
  unfold generate_unique_email
  set base := strLower fn ++ "." ++ strLower ln with hbase
  obtain ⟨k, hk, hfresh⟩ := exists_fresh_candidate used base
  have hs := findEmail_isSome used base (used.length + 1) 0 ⟨k, by omega, by simpa using hfresh⟩
  cases hfind : findEmail used base 0 (used.length + 1) with
  | none => rw [hfind] at hs; simp at hs
  | some e =>
    simp only [hfind]
    exact findEmail_some_not_mem used base _ 0 e hfind

/-! ## Lemmas: student generation -/

lemma generate_students_aux_emails (r : StudentTape) :
    ∀ n i used,
      ((generate_students_aux r n i used).1.map Student.email).Nodup ∧
      ∀ e ∈ (generate_students_aux r n i used).1.map Student.email, e ∉ used := by
  intro n
  induction n with
  | zero => intro i used; simp [generate_students_aux]
  | succ n ih =>
    intro i used
    have hfresh := generate_unique_email_not_mem used (r.first i) (r.last i)
    obtain ⟨ihnodup, ihnot⟩ := ih (i + 1) (generate_unique_email used (r.first i) (r.last i) :: used)
    constructor
    · simp only [generate_students_aux, List.map_cons, List.nodup_cons]
      refine ⟨fun hmem => ?_, ihnodup⟩
      exact (ihnot _ hmem) (List.mem_cons_self _ _)
    · intro e he
      simp only [generate_students_aux, List.map_cons, List.mem_cons] at he
      rcases he with rfl | he
      · exact hfresh
      · exact fun hu => (ihnot e he) (List.mem_cons_of_mem _ hu)

/-! ## Lemmas: numeric ranges of the random primitives -/

lemma pyRandint_range {a b : Nat} (hab : a ≤ b) (t : Nat) :
    a ≤ pyRandint a b t ∧ pyRandint a b t ≤ b := by
  unfold pyRandint
  have h1 : t % (b + 1 - a) < b + 1 - a := Nat.mod_lt _ (by omega)
  omega

lemma pyUniform_24 (t : ℚ) : 2 ≤ pyUniform 2 4 t ∧ pyUniform 2 4 t < 4 := by
  unfold pyUniform
  have h1 := Int.floor_le t
  have h2 := Int.lt_floor_add_one t
  constructor <;> nlinarith

lemma roundHalfEven_bounds (q : ℚ) :
    ⌊q⌋ ≤ roundHalfEven q ∧ roundHalfEven q ≤ ⌊q⌋ + 1 := by
  unfold roundHalfEven
  split_ifs <;> omega

/-- A grade or GPA `round(random.uniform(2.0, 4.0), 2)` lies in [2, 4] and is a
multiple of 1/100. -/
lemma grade_range (t : ℚ) :
    2 ≤ pyRound2 (pyUniform 2 4 t) ∧ pyRound2 (pyUniform 2 4 t) ≤ 4 ∧
      ∃ z : ℤ, pyRound2 (pyUniform 2 4 t) = z / 100 := by
  obtain ⟨h1, h2⟩ := pyUniform_24 t
  set q := pyUniform 2 4 t with hq
  obtain ⟨hb1, hb2⟩ := roundHalfEven_bounds (q * 100)
  have hf1 : (200 : ℤ) ≤ ⌊q * 100⌋ := by
    apply Int.le_floor.mpr
    push_cast
    linarith
  have hf2 : ⌊q * 100⌋ < 400 := by
    by_contra hcon
    push_neg at hcon
    have hle := Int.floor_le (q * 100)
    have : (400 : ℚ) ≤ (⌊q * 100⌋ : ℚ) := by exact_mod_cast hcon
    linarith
  unfold pyRound2
  refine ⟨?_, ?_, ⟨roundHalfEven (q * 100), rfl⟩⟩
  · have : (200 : ℚ) ≤ (roundHalfEven (q * 100) : ℚ) := by exact_mod_cast le_trans hf1 hb1
    linarith
  · have : (roundHalfEven (q * 100) : ℚ) ≤ 400 := by
      exact_mod_cast le_trans hb2 (by omega)
    linarith

lemma pyChoice_mem (xs : List String) (hxs : xs ≠ []) (t : Nat) : pyChoice xs t ∈ xs := by
  unfold pyChoice
  have hlen : 0 < xs.length := List.length_pos.mpr hxs
  have hlt : t % xs.length < xs.length := Nat.mod_lt _ hlen
  rw [List.getD_eq_getElem?_getD, List.getElem?_eq_getElem hlt]
  exact List.getElem_mem hlt

lemma pyChoiceNat_mem (xs : List Nat) (hxs : xs ≠ []) (t : Nat) : pyChoiceNat xs t ∈ xs := by
  unfold pyChoiceNat
  have hlen : 0 < xs.length := List.length_pos.mpr hxs
  have hlt : t % xs.length < xs.length := Nat.mod_lt _ hlen
  rw [List.getD_eq_getElem?_getD, List.getElem?_eq_getElem hlt]
  exact List.getElem_mem hlt

/-! ## Lemmas: student fields -/

lemma generate_students_aux_fields (r : StudentTape) :
    ∀ n i used st, st ∈ (generate_students_aux r n i used).1 →
      2 ≤ st.gpa ∧ st.gpa ≤ 4 ∧ (∃ z : ℤ, st.gpa = z / 100) ∧ st.total_credits ≤ 120 ∧
      st.gender ∈ gender_options ∧ st.enrollment_status ∈ status_options := by
  intro n
  induction n with
  | zero => intro i used st h; simp [generate_students_aux] at h
  | succ n ih =>
    intro i used st h
    simp only [generate_students_aux, List.mem_cons] at h
    rcases h with rfl | h
    · obtain ⟨g1, g2, g3⟩ := grade_range (r.gpaT i)
      exact ⟨g1, g2, g3, (pyRandint_range (by norm_num) (r.creditsT i)).2,
        pyChoice_mem _ (by simp [gender_options]) _,
        pyChoice_mem _ (by simp [status_options]) _⟩
    · exact ih (i + 1) _ st h

/-! ## Claim theorems (first group) -/

/-- C1: within one run no two generated students share an email:
`generate_unique_email` always returns an address not already in the issued
set (counter-suffix disambiguation), records it, and hence the emails of the
students produced by `generate_students` are pairwise distinct. -/
theorem emails_unique_per_run :
    (∀ used fn ln, generate_unique_email used fn ln ∉ used) ∧
    ∀ (n : Nat) (r : StudentTape) (used : List String),
      ((generate_students n r used).1.map Student.email).Nodup :=
  ⟨generate_unique_email_not_mem,
   fun n r used => (generate_students_aux_emails r n 0 used).1⟩

/-- C5: every generated student has GPA in [2.0, 4.0] rounded to 2 decimals
(a multiple of 1/100) and total_credits in [0, 120]. -/
theorem student_gpa_credits_range :
    ∀ (n : Nat) (r : StudentTape) (used : List String),
      ∀ st ∈ (generate_students n r used).1,
        2 ≤ st.gpa ∧ st.gpa ≤ 4 ∧ (∃ z : ℤ, st.gpa = z / 100) ∧
          st.total_credits ≤ 120 := by
  intro n r used st hmem
  obtain ⟨h1, h2, h3, h4, _, _⟩ := generate_students_aux_fields r n 0 used st hmem
  exact ⟨h1, h2, h3, h4⟩

/-- Witness for C5 at a concrete input. -/
theorem student_gpa_credits_range_witness :
    (⟨"Ada", "Lovelace", "Male", 0, "ada.lovelace@university.edu", "Active", 0, 2⟩ : Student) ∈
      (generate_students 1
        ⟨fun _ => "Ada", fun _ => "Lovelace", fun _ => 0, fun _ => 0, fun _ => 0,
         fun _ => 0, fun _ => 0⟩ []).1 ∧
    2 ≤ (Student.mk "Ada" "Lovelace" "Male" 0 "ada.lovelace@university.edu" "Active" 0 2).gpa ∧
    (Student.mk "Ada" "Lovelace" "Male" 0 "ada.lovelace@university.edu" "Active" 0 2).gpa ≤ 4 ∧
    (∃ z : ℤ,
      (Student.mk "Ada" "Lovelace" "Male" 0 "ada.lovelace@university.edu" "Active" 0 2).gpa =
        z / 100) ∧
    (Student.mk "Ada" "Lovelace" "Male" 0
        "ada.lovelace@university.edu" "Active" 0 2).total_credits ≤ 120 := by
  have hgpa : pyRound2 (pyUniform 2 4 0) = 2 := by
    norm_num [pyRound2, pyUniform, roundHalfEven]
  have h : (⟨"Ada", "Lovelace", "Male", 0, "ada.lovelace@university.edu", "Active", 0, 2⟩ :
      Student) ∈ (generate_students 1
        ⟨fun _ => "Ada", fun _ => "Lovelace", fun _ => 0, fun _ => 0, fun _ => 0,
         fun _ => 0, fun _ => 0⟩ []).1 := by
    simp only [generate_students, generate_students_aux, List.mem_cons, List.not_mem_nil,
      or_false, Student.mk.injEq, hgpa]
    decide
  exact ⟨h, student_gpa_credits_range 1 _ [] _ h⟩

/-- C8: `create_tables` is idempotent and lands in the same schema state from
any prior state: the four tables are dropped if present and recreated with the
declared constraints. -/
theorem create_tables_idempotent :
    ∀ s t : Schema,
      create_tables (create_tables s) = create_tables s ∧
        create_tables s = create_tables t := by
  intro s t
  exact ⟨rfl, rfl⟩

/-- C9: the issued-email set is process-local and reset each run: the freshly
constructed manager starts with an empty `used_emails`, so the entry point
generates students from an empty issued set and uniqueness is scoped to the
run. -/
theorem email_state_reset :
    main_manager.used_emails = [] ∧
    (∀ name, (Manager.mk_fresh name).used_emails = []) ∧
    ∀ r : StudentTape,
      mainStudents r = (generate_students default_num_students r []).1 ∧
        ((mainStudents r).map Student.email).Nodup := by
  refine ⟨rfl, fun name => rfl, fun r => ⟨rfl, ?_⟩⟩
  exact (generate_students_aux_emails r default_num_students 0 []).1

/-! ## Lemmas: orchestrator -/

lemma runStages_spec :
    ∀ stages : List StageOutcome,
      (runStages stages).2 = firstFailure stages ∧ (runStages stages).1 ≤ stages.length := by
  intro stages
  induction stages with
  | nil => exact ⟨rfl, Nat.le_refl 0⟩
  | cons s rest ih =>
    cases s with
    | ok =>
      refine ⟨?_, ?_⟩
      · simpa [runStages, firstFailure] using ih.1
      · simpa [runStages, firstFailure] using Nat.succ_le_succ ih.2
    | fail e => exact ⟨rfl, by simp [runStages]⟩

/-- C7: the orchestrator catches exactly sqlite errors (logging them to
standard output, terminal for the run, no stage retried), propagates any other
exception, and on every exit path the connection is closed iff it was
acquired. -/
theorem orchestrator_error_handling :
    ∀ (connect : StageOutcome) (stages : List StageOutcome),
      (run_database_generation connect stages).connClosed =
          (run_database_generation connect stages).connOpened ∧
        (firstFailure (connect :: stages) = none →
          (run_database_generation connect stages).uncaught = none ∧
            (run_database_generation connect stages).logged = []) ∧
        (∀ m, firstFailure (connect :: stages) = some (PyError.sqlite m) →
          (run_database_generation connect stages).uncaught = none ∧
            (run_database_generation connect stages).logged = ["Database error: " ++ m]) ∧
        (∀ m, firstFailure (connect :: stages) = some (PyError.other m) →
          (run_database_generation connect stages).uncaught = some m ∧
            (run_database_generation connect stages).logged = []) ∧
        (run_database_generation connect stages).stagesRun ≤ stages.length := by
  intro connect stages
  obtain ⟨h2, h1⟩ := runStages_spec stages
  cases connect with
  | fail e => cases e <;> simp [run_database_generation, firstFailure]
  | ok =>
    have hff : firstFailure (StageOutcome.ok :: stages) = (runStages stages).2 := by
      rw [h2]; rfl
    cases hq : (runStages stages).2 with
    | none =>
      rw [hq] at hff
      simp [run_database_generation, hq, hff, h1]
    | some e =>
      rw [hq] at hff
      cases e <;> simp [run_database_generation, hq, hff, h1]

/-! ## Lemmas: course seeding -/

lemma coursesForDept_length (did : Nat) (dname : String) (idT chT : Nat → Nat) :
    (coursesForDept did dname idT chT).length = 3 := by
  simp [coursesForDept, course_levels]

lemma generate_courses_length (depts : List (Nat × String)) (r : CourseTape) :
    (generate_courses depts r).length = 3 * depts.length := by
  unfold generate_courses
  rw [List.length_flatten, List.map_map]
  have hconst : ∀ q ∈ depts.enum,
      (List.length ∘ fun q : Nat × Nat × String =>
        coursesForDept q.2.1 q.2.2 (r.idT q.1) (r.chT q.1)) q = 3 := by
    intro q _
    exact coursesForDept_length _ _ _ _
  rw [List.map_congr_left hconst]
  simp [List.map_const', List.sum_replicate, List.enumFrom_length, Nat.mul_comm]

lemma coursesForDept_countP (d did : Nat) (dname lv : String) (idT chT : Nat → Nat) :
    (coursesForDept d dname idT chT).countP
        (fun c => c.department_id == did && c.course_level == lv) =
      if d = did then List.countP (fun s => s == lv) course_levels else 0 := by
  unfold coursesForDept
  rw [List.countP_map]
  by_cases hd : d = did
  · subst hd
    rw [if_pos rfl]
    rw [List.countP_congr (q := (fun s => s == lv) ∘ Prod.snd) ?hpq]
    case hpq =>
      intro p _
      simp [Function.comp]
    rw [← List.countP_map, List.enum_eq_enumFrom, List.enumFrom_map_snd]
  · rw [if_neg hd]
    rw [List.countP_eq_zero.mpr]
    intro x _
    simp only [Function.comp]
    simp [hd]

lemma sum_indicator_eq_one {l : List (Nat × String)} {did : Nat}
    (hnd : (l.map Prod.fst).Nodup) (hmem : did ∈ l.map Prod.fst) :
    (l.map (fun d => if d.1 = did then 1 else 0)).sum = 1 := by
  induction l with
  | nil => simp at hmem
  | cons a l ih =>
    simp only [List.map_cons, List.nodup_cons] at hnd
    simp only [List.map_cons, List.mem_cons] at hmem
    by_cases ha : a.1 = did
    · subst ha
      simp only [List.map_cons, List.sum_cons, if_pos rfl]
      have hz : (l.map (fun d => if d.1 = a.1 then 1 else 0)).sum = 0 := by
        apply List.sum_eq_zero
        intro x hx
        obtain ⟨d, hd, rfl⟩ := List.mem_map.mp hx
        rw [if_neg]
        intro h
        exact hnd.1 (h ▸ List.mem_map_of_mem Prod.fst hd)
      rw [hz]
      simp
    · rcases hmem with h | hmem
      · exact absurd h.symm ha
      · simp only [List.map_cons, List.sum_cons, if_neg ha]
        rw [ih hnd.2 hmem]

lemma generate_courses_countP (depts : List (Nat × String)) (r : CourseTape)
    (did : Nat) (lv : String) (hnd : (depts.map Prod.fst).Nodup)
    (hmem : did ∈ depts.map Prod.fst) (hlv : lv ∈ course_levels) :
    (generate_courses depts r).countP
        (fun c => c.department_id == did && c.course_level == lv) = 1 := by
  unfold generate_courses
  rw [List.countP_flatten, List.map_map]
  have hlv1 : List.countP (fun s => s == lv) course_levels = 1 := by
    have : List.countP (fun s => s == lv) course_levels = course_levels.count lv := rfl
    rw [this]
    exact List.count_eq_one_of_mem (by decide) hlv
  have hpt : ∀ q ∈ depts.enum,
      ((fun l => List.countP (fun c => c.department_id == did && c.course_level == lv) l) ∘
        fun q : Nat × Nat × String =>
          coursesForDept q.2.1 q.2.2 (r.idT q.1) (r.chT q.1)) q =
      ((fun d : Nat × String => if d.1 = did then 1 else 0) ∘ Prod.snd) q := by
    intro q _
    simp only [Function.comp]
    rw [coursesForDept_countP, hlv1]
  rw [List.map_congr_left hpt, ← List.map_map, List.enum_eq_enumFrom, List.enumFrom_map_snd]
  exact sum_indicator_eq_one hnd hmem

/-- C2: the course-seeding stage produces exactly 7 × 3 = 21 course rows, with
exactly one course per (department, level) pair over the seven seeded
departments and the three fixed levels. -/
theorem courses_complete_grid :
    ∀ r : CourseTape,
      (generate_courses departmentRows r).length = 21 ∧
      ∀ did dname lv, (did, dname) ∈ departmentRows → lv ∈ course_levels →
        (generate_courses departmentRows r).countP
            (fun c => c.department_id == did && c.course_level == lv) = 1 := by
  intro r
  constructor
  · rw [generate_courses_length]
    rfl
  · intro did dname lv hmem hlv
    apply generate_courses_countP _ _ _ _ (by decide) _ hlv
    exact List.mem_map_of_mem Prod.fst hmem

/-- Witness for C2 at a concrete (department, level) pair. -/
theorem courses_complete_grid_witness :
    ((1 : Nat), "Computer Science") ∈ departmentRows ∧ "Introductory" ∈ course_levels ∧
    (generate_courses departmentRows ⟨fun _ _ => 0, fun _ _ => 0⟩).countP
        (fun c => c.department_id == 1 && c.course_level == "Introductory") = 1 :=
  ⟨by decide, by decide,
   (courses_complete_grid ⟨fun _ _ => 0, fun _ _ => 0⟩).2 1 "Computer Science" "Introductory"
     (by decide) (by decide)⟩

/-- Witness for C7: a sqlite failure in a stage is caught and logged, the
connection is closed, and nothing propagates. -/
theorem orchestrator_error_handling_witness :
    (run_database_generation StageOutcome.ok
        [StageOutcome.ok, StageOutcome.fail (PyError.sqlite "disk full")]).uncaught = none ∧
    (run_database_generation StageOutcome.ok
        [StageOutcome.ok, StageOutcome.fail (PyError.sqlite "disk full")]).logged =
      ["Database error: disk full"] :=
  (orchestrator_error_handling StageOutcome.ok
    [StageOutcome.ok, StageOutcome.fail (PyError.sqlite "disk full")]).2.2.1 "disk full"
    (by decide)

/-! ## Lemmas: sampling without replacement -/

lemma pySampleAux_length (t : Nat → Nat) :
    ∀ k i pop, k ≤ pop.length → (pySampleAux t i k pop).length = k := by
  intro k
  induction k with
  | zero => intro i pop _; rfl
  | succ k ih =>
    intro i pop hk
    unfold pySampleAux
    have hpos : ¬pop.length = 0 := by omega
    rw [dif_neg hpos]
    have hidx : t i % pop.length < pop.length := Nat.mod_lt _ (Nat.pos_of_ne_zero hpos)
    simp only [List.length_cons]
    rw [ih (i + 1) _ (by rw [List.length_eraseIdx_of_lt hidx]; omega)]

lemma pySampleAux_subset (t : Nat → Nat) :
    ∀ k i pop, ∀ x ∈ pySampleAux t i k pop, x ∈ pop := by
  intro k
  induction k with
  | zero => intro i pop x hx; simp [pySampleAux] at hx
  | succ k ih =>
    intro i pop x hx
    unfold pySampleAux at hx
    by_cases hpos : pop.length = 0
    · rw [dif_pos hpos] at hx; simp at hx
    · rw [dif_neg hpos] at hx
      simp only [List.mem_cons] at hx
      rcases hx with rfl | hx
      · exact List.get_mem pop _ _
      · exact List.eraseIdx_subset pop _ (ih (i + 1) _ x hx)

lemma pySampleAux_nodup (t : Nat → Nat) :
    ∀ k i pop, pop.Nodup → (pySampleAux t i k pop).Nodup := by
  intro k
  induction k with
  | zero => intro i pop _; exact List.nodup_nil
  | succ k ih =>
    intro i pop hnd
    unfold pySampleAux
    by_cases hpos : pop.length = 0
    · rw [dif_pos hpos]; exact List.nodup_nil
    · rw [dif_neg hpos]
      have hidx : t i % pop.length < pop.length := Nat.mod_lt _ (Nat.pos_of_ne_zero hpos)
      refine List.nodup_cons.mpr ⟨?_, ih (i + 1) _ (hnd.eraseIdx _)⟩
      intro hmem
      have hsub := pySampleAux_subset t k (i + 1) _ _ hmem
      have hperm := List.erase_getElem (l := pop) hidx
      have hin : pop.get ⟨t i % pop.length, hidx⟩ ∈
          pop.erase (pop.get ⟨t i % pop.length, hidx⟩) := by
        refine hperm.mem_iff.mpr ?_
        simpa using hsub
      exact hnd.not_mem_erase hin

lemma pySample_some (pop : List String) (k : Nat) (t : Nat → Nat) (hk : k ≤ pop.length) :
    pySample pop k t = some (pySampleAux t 0 k pop) := by
  unfold pySample
  rw [if_pos hk]

/-! ## Lemmas: one student's enrollments -/

lemma studentEnrollments_some (sid : Nat) (courses : List String) (r : EnrollTape) (si : Nat)
    (block : List Enrollment) (h : studentEnrollments sid courses r si = some block) :
    (3 ≤ block.length ∧ block.length ≤ 5) ∧
    (∀ e ∈ block, e.student_id = sid) ∧
    (courses.Nodup → (block.map Enrollment.course_id).Nodup) ∧
    (∀ e ∈ block, e.semester ∈ semesters ∧ e.academic_year ∈ academic_years ∧
      2 ≤ e.grade ∧ e.grade ≤ 4 ∧ ∃ z : ℤ, e.grade = z / 100) := by
  unfold studentEnrollments at h
  replace h : Option.map (fun cs : List String =>
      cs.enum.map (fun p => enrollRow sid p.2 (r.semT si) (r.yearT si) (r.gradeT si) p.1))
      (pySample courses (pyRandint 3 5 (r.numT si)) (r.sampleT si)) = some block := h
  obtain ⟨hr3, hr5⟩ := pyRandint_range (a := 3) (b := 5) (by norm_num) (r.numT si)
  cases hs : pySample courses (pyRandint 3 5 (r.numT si)) (r.sampleT si) with
  | none => rw [hs] at h; simp at h
  | some cs =>
    rw [hs] at h
    simp only [Option.map_some', Option.some.injEq] at h
    -- recover that the sample succeeded with the requested size
    have hk : pyRandint 3 5 (r.numT si) ≤ courses.length := by
      by_contra hcon
      unfold pySample at hs
      rw [if_neg (by omega)] at hs
      exact Option.noConfusion hs
    have hcs : cs = pySampleAux (r.sampleT si) 0 (pyRandint 3 5 (r.numT si)) courses := by
      have := pySample_some courses (pyRandint 3 5 (r.numT si)) (r.sampleT si) hk
      rw [hs] at this
      simpa using this
    have hcl : cs.length = pyRandint 3 5 (r.numT si) := by
      rw [hcs]; exact pySampleAux_length _ _ 0 _ hk
    have hcsub : ∀ x ∈ cs, x ∈ courses := by
      intro x hx; rw [hcs] at hx; exact pySampleAux_subset _ _ 0 _ x hx
    subst h
    refine ⟨?_, ?_, ?_, ?_⟩
    · simp only [List.length_map, List.enum_eq_enumFrom, List.enumFrom_length]
      omega
    · intro e he
      obtain ⟨p, _, rfl⟩ := List.mem_map.mp he
      rfl
    · intro hcnd
      have hnd : cs.Nodup := by rw [hcs]; exact pySampleAux_nodup _ _ 0 _ hcnd
      have hmm : (cs.enum.map (fun p : Nat × String =>
          enrollRow sid p.2 (r.semT si) (r.yearT si) (r.gradeT si) p.1)).map
            Enrollment.course_id = cs := by
        rw [List.map_map]
        have : (Enrollment.course_id ∘ fun p : Nat × String =>
            enrollRow sid p.2 (r.semT si) (r.yearT si) (r.gradeT si) p.1) = Prod.snd := rfl
        rw [this, List.enum_eq_enumFrom, List.enumFrom_map_snd]
      rw [hmm]
      exact hnd
    · intro e he
      obtain ⟨p, _, rfl⟩ := List.mem_map.mp he
      obtain ⟨g1, g2, g3⟩ := grade_range (r.gradeT si p.1)
      exact ⟨pyChoice_mem _ (by simp [semesters]) _,
        pyChoiceNat_mem _ (by simp [academic_years, pyRange]) _, g1, g2, g3⟩

/-! ## Lemmas: the full enrollment pass -/

lemma generate_enrollments_aux_rows (courses : List String) (r : EnrollTape) :
    ∀ students si es, generate_enrollments_aux courses r students si = some es →
      ∀ e ∈ es, e.semester ∈ semesters ∧ e.academic_year ∈ academic_years ∧
        2 ≤ e.grade ∧ e.grade ≤ 4 ∧ ∃ z : ℤ, e.grade = z / 100 := by
  intro students
  induction students with
  | nil =>
    intro si es h e he
    simp only [generate_enrollments_aux, Option.some.injEq] at h
    subst h
    simp at he
  | cons sid rest ih =>
    intro si es h e he
    unfold generate_enrollments_aux at h
    cases hb : studentEnrollments sid courses r si with
    | none => rw [hb] at h; simp at h
    | some block =>
      rw [hb] at h
      cases ha : generate_enrollments_aux courses r rest (si + 1) with
      | none => rw [ha] at h; simp at h
      | some es2 =>
        rw [ha] at h
        simp only [Option.some.injEq] at h
        subst h
        rcases List.mem_append.mp he with hb2 | he2
        · exact (studentEnrollments_some sid courses r si block hb).2.2.2 e hb2
        · exact ih (si + 1) es2 ha e he2

lemma generate_enrollments_aux_spec (courses : List String) (r : EnrollTape) :
    ∀ students si es, generate_enrollments_aux courses r students si = some es →
      students.Nodup →
      (∀ e ∈ es, e.student_id ∈ students) ∧
      3 * students.length ≤ es.length ∧ es.length ≤ 5 * students.length ∧
      (courses.Nodup → (es.map enrollKey).Nodup) ∧
      ∀ sid ∈ students,
        3 ≤ (es.filter (fun e => e.student_id == sid)).length ∧
        (es.filter (fun e => e.student_id == sid)).length ≤ 5 ∧
        (courses.Nodup →
          ((es.filter (fun e => e.student_id == sid)).map Enrollment.course_id).Nodup) := by
  intro students
  induction students with
  | nil =>
    intro si es h _
    simp only [generate_enrollments_aux, Option.some.injEq] at h
    subst h
    simp
  | cons sid rest ih =>
    intro si es h hnd
    rw [List.nodup_cons] at hnd
    unfold generate_enrollments_aux at h
    cases hb : studentEnrollments sid courses r si with
    | none => rw [hb] at h; simp at h
    | some block =>
      rw [hb] at h
      cases ha : generate_enrollments_aux courses r rest (si + 1) with
      | none => rw [ha] at h; simp at h
      | some es2 =>
        rw [ha] at h
        simp only [Option.some.injEq] at h
        subst h
        obtain ⟨⟨hb3, hb5⟩, hbsid, hbcnd, _⟩ :=
          studentEnrollments_some sid courses r si block hb
        obtain ⟨hmem2, hlen3, hlen5, hkey2, hfilter2⟩ := ih (si + 1) es2 ha hnd.2
        have hblockKeys : courses.Nodup → ((block.map enrollKey).Nodup) := by
          intro hcnd
          apply List.Nodup.of_map (fun k : Nat × String × String × Nat => k.2.1)
          rw [List.map_map]
          have : ((fun k : Nat × String × String × Nat => k.2.1) ∘ enrollKey) =
              Enrollment.course_id := rfl
          rw [this]
          exact hbcnd hcnd
        refine ⟨?_, ?_, ?_, ?_, ?_⟩
        · intro e he
          rcases List.mem_append.mp he with h1 | h2
          · rw [hbsid e h1]; exact List.mem_cons_self _ _
          · exact List.mem_cons_of_mem _ (hmem2 e h2)
        · simp only [List.length_append, List.length_cons]
          omega
        · simp only [List.length_append, List.length_cons]
          omega
        · intro hcnd
          rw [List.map_append]
          refine List.nodup_append.mpr ⟨hblockKeys hcnd, hkey2 hcnd, ?_⟩
          intro a ha1 ha2
          obtain ⟨e1, he1, rfl⟩ := List.mem_map.mp ha1
          obtain ⟨e2, he2, hk⟩ := List.mem_map.mp ha2
          have hs1 : e1.student_id = sid := hbsid e1 he1
          have hs2 : e2.student_id ∈ rest := hmem2 e2 he2
          have : e2.student_id = e1.student_id := congrArg Prod.fst hk
          rw [this, hs1] at hs2
          exact hnd.1 hs2
        · intro sid2 hsid2
          rw [List.filter_append]
          rcases List.mem_cons.mp hsid2 with rfl | hsid2
          · have hfb : block.filter (fun e => e.student_id == sid2) = block := by
              rw [List.filter_eq_self]
              intro e he
              simp [hbsid e he]
            have hfe : es2.filter (fun e => e.student_id == sid2) = [] := by
              rw [List.filter_eq_nil_iff]
              intro e he
              have := hmem2 e he
              simp only [beq_iff_eq]
              intro hcon
              rw [hcon] at this
              exact hnd.1 this
            rw [hfb, hfe, List.append_nil]
            exact ⟨hb3, hb5, fun hcnd => hbcnd hcnd⟩
          · have hfb : block.filter (fun e => e.student_id == sid2) = [] := by
              rw [List.filter_eq_nil_iff]
              intro e he
              rw [hbsid e he]
              simp only [beq_iff_eq]
              intro hcon
              rw [hcon] at hnd
              exact hnd.1 hsid2
            rw [hfb, List.nil_append]
            exact hfilter2 sid2 hsid2

lemma generate_enrollments_aux_isSome (courses : List String) (r : EnrollTape)
    (hlen : 5 ≤ courses.length) :
    ∀ students si, (generate_enrollments_aux courses r students si).isSome = true := by
  intro students
  induction students with
  | nil => intro si; rfl
  | cons sid rest ih =>
    intro si
    unfold generate_enrollments_aux
    have hk : pyRandint 3 5 (r.numT si) ≤ courses.length :=
      le_trans (pyRandint_range (by norm_num) (r.numT si)).2 hlen
    have hs : studentEnrollments sid courses r si =
        some ((pySampleAux (r.sampleT si) 0 (pyRandint 3 5 (r.numT si)) courses).enum.map
          (fun p => enrollRow sid p.2 (r.semT si) (r.yearT si) (r.gradeT si) p.1)) := by
      unfold studentEnrollments
      show Option.map _ (pySample courses (pyRandint 3 5 (r.numT si)) (r.sampleT si)) = _
      rw [pySample_some _ _ _ hk]
      rfl
    rw [hs]
    have h2 := ih (si + 1)
    cases hrest : generate_enrollments_aux courses r rest (si + 1) with
    | none => rw [hrest] at h2; simp at h2
    | some es2 => rfl

/-! ## Claim theorems (second group) -/

/-- C3: among the enrollments produced in one run, no two rows share the same
(student_id, course_id, semester, academic_year) tuple; the student-id and
course-id lists read back from the database are distinct (primary keys). -/
theorem enrollment_keys_unique :
    ∀ (students : List Nat) (courses : List String) (r : EnrollTape) (es : List Enrollment),
      students.Nodup → courses.Nodup →
      generate_enrollments students courses r = some es →
      (es.map enrollKey).Nodup := by
  intro students courses r es hs hc h
  exact (generate_enrollments_aux_spec courses r students 0 es h hs).2.2.2.1 hc

/-- Witness for C3 at a concrete run (one student, five courses). -/
theorem enrollment_keys_unique_witness :
    generate_enrollments [1] ["A", "B", "C", "D", "E"]
        ⟨fun _ => 0, fun _ _ => 0, fun _ _ => 0, fun _ _ => 0, fun _ _ => 0⟩ =
      some [⟨1, "A", "Fall", 2018, pyRound2 (pyUniform 2 4 0)⟩,
            ⟨1, "B", "Fall", 2018, pyRound2 (pyUniform 2 4 0)⟩,
            ⟨1, "C", "Fall", 2018, pyRound2 (pyUniform 2 4 0)⟩] ∧
    (([⟨1, "A", "Fall", 2018, pyRound2 (pyUniform 2 4 0)⟩,
       ⟨1, "B", "Fall", 2018, pyRound2 (pyUniform 2 4 0)⟩,
       ⟨1, "C", "Fall", 2018, pyRound2 (pyUniform 2 4 0)⟩] :
        List Enrollment).map enrollKey).Nodup := by
  have hr : generate_enrollments [1] ["A", "B", "C", "D", "E"]
      ⟨fun _ => 0, fun _ _ => 0, fun _ _ => 0, fun _ _ => 0, fun _ _ => 0⟩ =
      some [⟨1, "A", "Fall", 2018, pyRound2 (pyUniform 2 4 0)⟩,
            ⟨1, "B", "Fall", 2018, pyRound2 (pyUniform 2 4 0)⟩,
            ⟨1, "C", "Fall", 2018, pyRound2 (pyUniform 2 4 0)⟩] := rfl
  exact ⟨hr, enrollment_keys_unique [1] ["A", "B", "C", "D", "E"] _ _
    (by decide) (by decide) hr⟩

/-- C4: every student receives between 3 and 5 enrollments with pairwise
distinct course ids (sampling without replacement), so the total count lies
between 3N and 5N. -/
theorem enrollments_per_student_bounds :
    ∀ (students : List Nat) (courses : List String) (r : EnrollTape),
      students.Nodup → courses.Nodup → 5 ≤ courses.length →
      ∃ es, generate_enrollments students courses r = some es ∧
        3 * students.length ≤ es.length ∧ es.length ≤ 5 * students.length ∧
        ∀ sid ∈ students,
          3 ≤ (es.filter (fun e => e.student_id == sid)).length ∧
          (es.filter (fun e => e.student_id == sid)).length ≤ 5 ∧
          ((es.filter (fun e => e.student_id == sid)).map Enrollment.course_id).Nodup := by
  intro students courses r hs hc hlen
  have hsome := generate_enrollments_aux_isSome courses r hlen students 0
  obtain ⟨es, hes⟩ := Option.isSome_iff_exists.mp hsome
  obtain ⟨_, h3, h5, _, hfil⟩ := generate_enrollments_aux_spec courses r students 0 es hes hs
  exact ⟨es, hes, h3, h5, fun sid hsid =>
    ⟨(hfil sid hsid).1, (hfil sid hsid).2.1, (hfil sid hsid).2.2 hc⟩⟩

/-- Witness for C4 at a concrete run. -/
theorem enrollments_per_student_bounds_witness :
    ∃ es, generate_enrollments [1] ["A", "B", "C", "D", "E"]
        ⟨fun _ => 0, fun _ _ => 0, fun _ _ => 0, fun _ _ => 0, fun _ _ => 0⟩ = some es ∧
      3 * [1].length ≤ es.length ∧ es.length ≤ 5 * [1].length ∧
      ∀ sid ∈ [1],
        3 ≤ (es.filter (fun e => e.student_id == sid)).length ∧
        (es.filter (fun e => e.student_id == sid)).length ≤ 5 ∧
        ((es.filter (fun e => e.student_id == sid)).map Enrollment.course_id).Nodup :=
  enrollments_per_student_bounds [1] ["A", "B", "C", "D", "E"] _
    (by decide) (by decide) (by decide)

/-- C6: every enrollment row has a semester in {Fall, Spring, Summer}, an
academic year in 2018..2023, and a grade in [2.0, 4.0] rounded to 2
decimals. -/
theorem enrollment_row_ranges :
    ∀ (students : List Nat) (courses : List String) (r : EnrollTape) (es : List Enrollment),
      generate_enrollments students courses r = some es →
      ∀ e ∈ es, e.semester ∈ ["Fall", "Spring", "Summer"] ∧
        2018 ≤ e.academic_year ∧ e.academic_year ≤ 2023 ∧
        2 ≤ e.grade ∧ e.grade ≤ 4 ∧ ∃ z : ℤ, e.grade = z / 100 := by
  intro students courses r es h e he
  obtain ⟨h1, h2, h3, h4, h5⟩ := generate_enrollments_aux_rows courses r students 0 es h e he
  have hy : ∀ y ∈ academic_years, 2018 ≤ y ∧ y ≤ 2023 := by decide
  exact ⟨by simpa [semesters] using h1, (hy _ h2).1, (hy _ h2).2, h3, h4, h5⟩

/-- Witness for C6 at a concrete run and row. -/
theorem enrollment_row_ranges_witness :
    generate_enrollments [1] ["A", "B", "C", "D", "E"]
        ⟨fun _ => 0, fun _ _ => 1, fun _ _ => 1, fun _ _ => 2, fun _ _ => 0⟩ =
      some [⟨1, "B", "Spring", 2020, pyRound2 (pyUniform 2 4 0)⟩,
            ⟨1, "C", "Spring", 2020, pyRound2 (pyUniform 2 4 0)⟩,
            ⟨1, "D", "Spring", 2020, pyRound2 (pyUniform 2 4 0)⟩] ∧
    ((⟨1, "B", "Spring", 2020, pyRound2 (pyUniform 2 4 0)⟩ : Enrollment).semester ∈
        ["Fall", "Spring", "Summer"] ∧
      2018 ≤ (⟨1, "B", "Spring", 2020, pyRound2 (pyUniform 2 4 0)⟩ : Enrollment).academic_year ∧
      (⟨1, "B", "Spring", 2020, pyRound2 (pyUniform 2 4 0)⟩ : Enrollment).academic_year ≤ 2023 ∧
      2 ≤ (⟨1, "B", "Spring", 2020, pyRound2 (pyUniform 2 4 0)⟩ : Enrollment).grade ∧
      (⟨1, "B", "Spring", 2020, pyRound2 (pyUniform 2 4 0)⟩ : Enrollment).grade ≤ 4 ∧
      ∃ z : ℤ, (⟨1, "B", "Spring", 2020, pyRound2 (pyUniform 2 4 0)⟩ : Enrollment).grade =
        z / 100) := by
  have hr : generate_enrollments [1] ["A", "B", "C", "D", "E"]
      ⟨fun _ => 0, fun _ _ => 1, fun _ _ => 1, fun _ _ => 2, fun _ _ => 0⟩ =
      some [⟨1, "B", "Spring", 2020, pyRound2 (pyUniform 2 4 0)⟩,
            ⟨1, "C", "Spring", 2020, pyRound2 (pyUniform 2 4 0)⟩,
            ⟨1, "D", "Spring", 2020, pyRound2 (pyUniform 2 4 0)⟩] := rfl
  exact ⟨hr, enrollment_row_ranges [1] ["A", "B", "C", "D", "E"] _ _ hr
    (⟨1, "B", "Spring", 2020, pyRound2 (pyUniform 2 4 0)⟩ : Enrollment)
    (List.mem_cons_self _ _)⟩

/-- C10: the requested sample size `randint(3,5)` never exceeds the 21 courses
produced by the course-seeding stage, so the `random.sample` error branch is
unreachable in a normal run. -/
theorem sample_size_always_valid :
    (∀ t, 3 ≤ pyRandint 3 5 t ∧ pyRandint 3 5 t ≤ 5) ∧
    ∀ (cr : CourseTape) (students : List Nat) (r : EnrollTape),
      (generate_enrollments students
          ((generate_courses departmentRows cr).map Course.course_id) r).isSome = true := by
  constructor
  · intro t
    exact pyRandint_range (by norm_num) t
  · intro cr students r
    apply generate_enrollments_aux_isSome
    rw [List.length_map, generate_courses_length]
    decide

end UniversityDB
